import Mathlib

/-!
Shallow embedding of the sensor-monitoring and reminder/alert dispatch
engine of the Prawncare backend (Node.js/Express), and proofs about it.

The embedded parts are:
* the feeding-reminder scan and its in-memory dedup list (`reminders`,
  the minute cron job, the `/acknowledge` route);
* the threshold evaluator inside `checkConditionsAndSendAlert`;
* the bounded telemetry fetcher `fetchSensorDataFromESP`;
* the 6-hourly archival job `saveSensorsData`;
* the notification fan-out for reminders (socket emit + FCM push) and for
  alerts (worker e-mails + FCM push);
* the `connection.on('error')` handlers of the two database modules.

JavaScript numbers that may be `undefined` (a field absent from the
fetched JSON) are modelled as `Option Int`: any `<` / `>` comparison
against `undefined` is `false` in JavaScript (NaN semantics), which
`jsLt` / `jsGt` reproduce.
-/

namespace Prawncare

/-- A value of a JSON field that may be absent (`undefined`). -/
abbrev JsNum := Option Int

/-- JavaScript `<` on possibly-undefined numbers: comparing with
`undefined` (NaN) is always `false`. -/
def jsLt : JsNum → JsNum → Bool
  | some a, some b => a < b
  | _, _ => false

/-- JavaScript `>` on possibly-undefined numbers. -/
def jsGt : JsNum → JsNum → Bool
  | some a, some b => b < a
  | _, _ => false

/-- String interpolation of a possibly-undefined number, as a JS template
literal renders it. -/
def jsShow : JsNum → String
  | none => "undefined"
  | some n => toString n

@[simp] theorem jsLt_some_some (a b : Int) : jsLt (some a) (some b) = decide (a < b) := rfl

@[simp] theorem jsGt_some_some (a b : Int) : jsGt (some a) (some b) = decide (b < a) := rfl

@[simp] theorem jsLt_none_left (x : JsNum) : jsLt none x = false := rfl

@[simp] theorem jsGt_none_left (x : JsNum) : jsGt none x = false := rfl

/-! ## Feeding reminders: the in-memory dedup list (part_001) -/

/-- One row of the `feeding_schedule` table as returned by the scan query. -/
structure FeedingRow where
  feeding_ID : String
  Pond_ID : String
  feeding_time : String
deriving DecidableEq, Repr

/-- The reminder object pushed onto the module-level `reminders` array. -/
structure Reminder where
  feeding_ID : String
  pond_ID : String
  reminder_time : String
  message : String
  acknowledged : Bool
deriving DecidableEq, Repr

/-- The reminder literal constructed by the cron body for a schedule row. -/
def mkReminder (row : FeedingRow) (currentTime : String) : Reminder :=
  { feeding_ID := row.feeding_ID
    pond_ID := row.Pond_ID
    reminder_time := currentTime
    message := "Feeding reminder: Pond " ++ row.Pond_ID ++ " needs feeding at " ++ row.feeding_time
    acknowledged := false }

/-- `reminders.some(rem => rem.feeding_ID === row.feeding_ID)`. -/
def hasReminder (reminders : List Reminder) (id : String) : Bool :=
  reminders.any (fun rem => rem.feeding_ID == id)

/-- The dedup decision of the cron body for one schedule row: if a
reminder with the same `feeding_ID` already exists, nothing is created
(`none`) and the list is unchanged; otherwise the new reminder is pushed
and returned. -/
def tryCreate (row : FeedingRow) (currentTime : String) (reminders : List Reminder) :
    Option Reminder × List Reminder :=
  if hasReminder reminders row.feeding_ID then
    (none, reminders)
  else
    let r := mkReminder row currentTime
    (some r, reminders ++ [r])

/-- The externally visible effects of one scan step for one row. -/
inductive ScanEvent
  | emitFeedingReminder (r : Reminder)
  | feedingPush (r : Reminder)
deriving DecidableEq, Repr

/-- One iteration of the cron body's `results.forEach`: on creation it
emits the socket event and the push; on a dedup hit it does nothing. -/
def scanRow (row : FeedingRow) (currentTime : String) (reminders : List Reminder) :
    List ScanEvent × List Reminder :=
  match tryCreate row currentTime reminders with
  | (some r, s) => ([ScanEvent.emitFeedingReminder r, ScanEvent.feedingPush r], s)
  | (none, s) => ([], s)

/-- Processing a whole batch of scan rows (possibly spanning several cron
ticks), threading the reminder list; no acknowledgment in between. -/
def scanRows : List (FeedingRow × String) → List Reminder → List Reminder
  | [], s => s
  | (row, t) :: rest, s => scanRows rest (scanRow row t s).2

/-- The `/acknowledge` route's response body. -/
inductive AckResponse
  | badRequest (error : String)
  | success (message : String)
deriving DecidableEq, Repr

/-- The `/acknowledge` route handler: a missing or empty `feeding_ID`
(falsy) is rejected with 400; otherwise every reminder with that id is
filtered out and `success: true` is returned unconditionally. -/
def acknowledgeRoute (feeding_ID : Option String) (reminders : List Reminder) :
    AckResponse × List Reminder :=
  match feeding_ID with
  | none => (AckResponse.badRequest "feeding_ID is required", reminders)
  | some id =>
    if id = "" then
      (AckResponse.badRequest "feeding_ID is required", reminders)
    else
      (AckResponse.success ("Reminder " ++ id ++ " acknowledged"),
        reminders.filter (fun rem => rem.feeding_ID != id))

/-! ### Dedup lemmas -/

theorem hasReminder_tryCreate_snd (row : FeedingRow) (t : String) (s : List Reminder) :
    hasReminder (tryCreate row t s).2 row.feeding_ID = true := by
  unfold tryCreate
  by_cases h : hasReminder s row.feeding_ID
  · simp [h]
  · simp only [h, Bool.false_eq_true, if_false]
    simp [hasReminder, mkReminder] at *

theorem hasReminder_mono_scanRow (row : FeedingRow) (t : String) (s : List Reminder)
    (id : String) (h : hasReminder s id = true) :
    hasReminder (scanRow row t s).2 id = true := by
  unfold scanRow tryCreate
  by_cases hex : hasReminder s row.feeding_ID
  · simp [hex, h]
  · simp only [hex, Bool.false_eq_true, if_false]
    simp only [hasReminder, List.any_append, Bool.or_eq_true] at *
    exact Or.inl h

theorem hasReminder_mono_scanRows (l : List (FeedingRow × String)) (s : List Reminder)
    (id : String) (h : hasReminder s id = true) :
    hasReminder (scanRows l s) id = true := by
  induction l generalizing s with
  | nil => exact h
  | cons p rest ih =>
    exact ih _ (hasReminder_mono_scanRow p.1 p.2 s id h)

theorem tryCreate_of_hasReminder (row : FeedingRow) (t : String) (s : List Reminder)
    (h : hasReminder s row.feeding_ID = true) :
    tryCreate row t s = (none, s) := by
  simp [tryCreate, h]

theorem filter_eq_self_of_not_hasReminder (s : List Reminder) (id : String)
    (h : hasReminder s id = false) :
    s.filter (fun rem => rem.feeding_ID != id) = s := by
  rw [List.filter_eq_self]
  intro a ha
  simp only [hasReminder, List.any_eq_false, beq_iff_eq] at h
  simp only [bne_iff_ne, ne_eq]
  exact h a ha

/-- **C1.** Once a live reminder for a feeding identifier exists, a second
scan pass creates no second reminder and triggers no second dispatch: the
first `tryCreate` on a state with no live reminder returns the new
reminder, a `tryCreate` on a state that has one returns `none` and leaves
the state unchanged, an immediate second call always returns `none` and
emits no events, and after any further scan passes (no acknowledgment in
between) a call for the same identifier still returns `none`. -/
theorem tryCreate_dedup_invariant (row : FeedingRow) (t₁ t₂ : String) (s : List Reminder) :
    (hasReminder s row.feeding_ID = false →
      tryCreate row t₁ s = (some (mkReminder row t₁), s ++ [mkReminder row t₁])) ∧
    (hasReminder s row.feeding_ID = true → tryCreate row t₁ s = (none, s)) ∧
    (tryCreate row t₂ (tryCreate row t₁ s).2).1 = none ∧
    (scanRow row t₂ (scanRow row t₁ s).2).1 = [] ∧
    (∀ l : List (FeedingRow × String),
      (tryCreate row t₂ (scanRows l (tryCreate row t₁ s).2)).1 = none) := by
  refine ⟨fun h => by simp [tryCreate, h], fun h => tryCreate_of_hasReminder row t₁ s h, ?_, ?_, ?_⟩
  · rw [tryCreate_of_hasReminder row t₂ _ (hasReminder_tryCreate_snd row t₁ s)]
  · have h2 : (scanRow row t₁ s).2 = (tryCreate row t₁ s).2 := by
      unfold scanRow
      rcases hc : tryCreate row t₁ s with ⟨r, s'⟩
      cases r <;> simp
    rw [h2]
    unfold scanRow
    rw [tryCreate_of_hasReminder row t₂ _ (hasReminder_tryCreate_snd row t₁ s)]
  · intro l
    rw [tryCreate_of_hasReminder row t₂ _
      (hasReminder_mono_scanRows l _ _ (hasReminder_tryCreate_snd row t₁ s))]

/-- Witness for C1 at the concrete schedule row F1/P1 at 14:00, scanned at
13:50 and rescanned at 13:51 with an unrelated row in between. -/
theorem tryCreate_dedup_invariant_witness :
    (tryCreate ⟨"F1", "P1", "14:00:00"⟩ "13:50:00" [] =
      (some (mkReminder ⟨"F1", "P1", "14:00:00"⟩ "13:50:00"),
        [mkReminder ⟨"F1", "P1", "14:00:00"⟩ "13:50:00"])) ∧
    (tryCreate ⟨"F1", "P1", "14:00:00"⟩ "13:51:00"
      (tryCreate ⟨"F1", "P1", "14:00:00"⟩ "13:50:00" []).2).1 = none ∧
    (tryCreate ⟨"F1", "P1", "14:00:00"⟩ "13:52:00"
      (scanRows [(⟨"F2", "P2", "14:05:00"⟩, "13:51:00")]
        (tryCreate ⟨"F1", "P1", "14:00:00"⟩ "13:50:00" []).2)).1 = none :=
  ⟨(tryCreate_dedup_invariant ⟨"F1", "P1", "14:00:00"⟩ "13:50:00" "13:51:00" []).1 (by decide),
   (tryCreate_dedup_invariant ⟨"F1", "P1", "14:00:00"⟩ "13:50:00" "13:51:00" []).2.2.1,
   (tryCreate_dedup_invariant ⟨"F1", "P1", "14:00:00"⟩ "13:50:00" "13:52:00" []).2.2.2.2
     [(⟨"F2", "P2", "14:05:00"⟩, "13:51:00")]⟩

/-! ### Acknowledge (C4, C10) -/

/-- **C4 counterexample.** Acknowledging an identifier with no live
reminder responds `success: true` (the code's response never carries a
"was anything removed" boolean), and acknowledging twice in a row
responds `success: true` both times — not `(true, false)` as claimed. -/
theorem acknowledge_always_success :
    (acknowledgeRoute (some "F1") []).1 = AckResponse.success "Reminder F1 acknowledged" ∧
    (acknowledgeRoute (some "F1")
      (acknowledgeRoute (some "F1") [mkReminder ⟨"F1", "P1", "14:00:00"⟩ "13:50:00"]).2).1 =
      AckResponse.success "Reminder F1 acknowledged" := by
  constructor <;> rfl

/-- **C4 amended.** The acknowledge route removes every live reminder for
the identifier if present; acknowledging an identifier with no live
reminder is not an error and has no side effect; but the response does
not report whether anything was removed: any non-empty identifier gets
`success: true`, so two acknowledgments in a row both report success. -/
theorem acknowledge_semantics (id : String) (s : List Reminder) (h : id ≠ "") :
    (acknowledgeRoute (some id) s).1 = AckResponse.success ("Reminder " ++ id ++ " acknowledged") ∧
    (acknowledgeRoute (some id) s).2 = s.filter (fun rem => rem.feeding_ID != id) ∧
    (hasReminder s id = false → (acknowledgeRoute (some id) s).2 = s) ∧
    (acknowledgeRoute (some id) (acknowledgeRoute (some id) s).2).1 =
      AckResponse.success ("Reminder " ++ id ++ " acknowledged") := by
  refine ⟨by simp [acknowledgeRoute, h], by simp [acknowledgeRoute, h], ?_, by simp [acknowledgeRoute, h]⟩
  intro hno
  simp only [acknowledgeRoute, h, if_false]
  exact filter_eq_self_of_not_hasReminder s id hno

/-- Witness for the amended C4 at identifier "F1" and a one-reminder state
for the unrelated identifier "F2". -/
theorem acknowledge_semantics_witness :
    (acknowledgeRoute (some "F1")
      [mkReminder ⟨"F2", "P2", "14:05:00"⟩ "13:50:00"]).1 =
      AckResponse.success "Reminder F1 acknowledged" ∧
    (acknowledgeRoute (some "F1")
      [mkReminder ⟨"F2", "P2", "14:05:00"⟩ "13:50:00"]).2 =
      [mkReminder ⟨"F2", "P2", "14:05:00"⟩ "13:50:00"] :=
  ⟨(acknowledge_semantics "F1" [mkReminder ⟨"F2", "P2", "14:05:00"⟩ "13:50:00"]
      (by decide)).1,
   (acknowledge_semantics "F1" [mkReminder ⟨"F2", "P2", "14:05:00"⟩ "13:50:00"]
      (by decide)).2.2.1 (by decide)⟩

/-- **C10.** An acknowledge request whose `feeding_ID` is missing or the
empty string is rejected with the 400 error body and leaves the reminder
list completely unchanged. -/
theorem acknowledge_missing_id_rejected (s : List Reminder) :
    acknowledgeRoute none s = (AckResponse.badRequest "feeding_ID is required", s) ∧
    acknowledgeRoute (some "") s = (AckResponse.badRequest "feeding_ID is required", s) := by
  constructor <;> rfl

/-! ## Threshold evaluation (part_002, `checkConditionsAndSendAlert`) -/

/-- The `thresholds` table row (columns used by the condition check). -/
structure Threshold where
  min_water_level : Int
  max_water_level : Int
  min_temperature : Int
  max_temperature : Int
  min_tds : Int
  max_tds : Int
deriving DecidableEq, Repr

/-- The `pondData` object built from the fetched ESP JSON; each field may
be `undefined` if the JSON lacked it. -/
structure PondData where
  waterLevel : JsNum
  temperature : JsNum
  tds : JsNum
deriving DecidableEq, Repr

/-- Which metric an alert condition is about (determined by which `if`
branch pushed the alert string). -/
inductive Metric
  | waterLevel
  | temperature
  | tds
deriving DecidableEq, Repr

/-- One alert condition: the metric whose check pushed it, and the
message string the code pushes. -/
structure Alert where
  metric : Metric
  message : String
deriving DecidableEq, Repr

/-- `pondData.waterLevel < threshold.min_water_level || pondData.waterLevel > threshold.max_water_level`. -/
def waterLevelOut (p : PondData) (t : Threshold) : Bool :=
  jsLt p.waterLevel (some t.min_water_level) || jsGt p.waterLevel (some t.max_water_level)

/-- `pondData.temperature < threshold.min_temperature || pondData.temperature > threshold.max_temperature`. -/
def temperatureOut (p : PondData) (t : Threshold) : Bool :=
  jsLt p.temperature (some t.min_temperature) || jsGt p.temperature (some t.max_temperature)

/-- `pondData.tds < threshold.min_tds || pondData.tds > threshold.max_tds`. -/
def tdsOut (p : PondData) (t : Threshold) : Bool :=
  jsLt p.tds (some t.min_tds) || jsGt p.tds (some t.max_tds)

/-- The water-level alert string (the source prefixes it with a warning
emoji). -/
def waterLevelMsg (p : PondData) (t : Threshold) : String :=
  "⚠️ Water Level: " ++ jsShow p.waterLevel ++ " (Range: " ++
    toString t.min_water_level ++ "-" ++ toString t.max_water_level ++ ")"

/-- The temperature alert string. -/
def temperatureMsg (p : PondData) (t : Threshold) : String :=
  "⚠️ Temperature: " ++ jsShow p.temperature ++ "°C (Range: " ++
    toString t.min_temperature ++ "-" ++ toString t.max_temperature ++ "°C)"

/-- The TDS alert string. -/
def tdsMsg (p : PondData) (t : Threshold) : String :=
  "⚠️ TDS: " ++ jsShow p.tds ++ " (Range: " ++
    toString t.min_tds ++ "-" ++ toString t.max_tds ++ ")"

/-- The alert list built by the three sequential `if`/`push` blocks of
`checkConditionsAndSendAlert`: water level first, then temperature, then
TDS. -/
def buildAlerts (p : PondData) (t : Threshold) : List Alert :=
  (if waterLevelOut p t then [⟨Metric.waterLevel, waterLevelMsg p t⟩] else []) ++
  (if temperatureOut p t then [⟨Metric.temperature, temperatureMsg p t⟩] else []) ++
  (if tdsOut p t then [⟨Metric.tds, tdsMsg p t⟩] else [])

/-- **C2.** An alert condition for a metric is emitted exactly when the
(numeric) observed value is strictly outside the `[min, max]` interval:
for each of the three metrics, the alerts carrying that metric name are
the one correctly-formatted message if the value is strictly below `min`
or strictly above `max`, and empty otherwise — in particular a value equal
to `min` or to `max` produces no alert for that metric. -/
theorem evaluate_boundary (wl tp td : Int) (t : Threshold) :
    (buildAlerts ⟨some wl, some tp, some td⟩ t).filter (fun a => a.metric == Metric.waterLevel) =
      (if wl < t.min_water_level ∨ t.max_water_level < wl then
        [⟨Metric.waterLevel, waterLevelMsg ⟨some wl, some tp, some td⟩ t⟩] else []) ∧
    (buildAlerts ⟨some wl, some tp, some td⟩ t).filter (fun a => a.metric == Metric.temperature) =
      (if tp < t.min_temperature ∨ t.max_temperature < tp then
        [⟨Metric.temperature, temperatureMsg ⟨some wl, some tp, some td⟩ t⟩] else []) ∧
    (buildAlerts ⟨some wl, some tp, some td⟩ t).filter (fun a => a.metric == Metric.tds) =
      (if td < t.min_tds ∨ t.max_tds < td then
        [⟨Metric.tds, tdsMsg ⟨some wl, some tp, some td⟩ t⟩] else []) := by
  unfold buildAlerts waterLevelOut temperatureOut tdsOut
  refine ⟨?_, ?_, ?_⟩ <;>
    · simp only [jsLt_some_some, jsGt_some_some, List.filter_append]
      split_ifs <;> simp_all

/-- **C3.** The metrics of the emitted alert conditions always form a
subsequence of the fixed order water level, temperature, TDS (the three
checks run in that fixed program order, independent of any ordering in
the input data), and when all three metrics are out of range the result
is exactly the three conditions in that order. -/
theorem evaluate_ordered (p : PondData) (t : Threshold) :
    List.Sublist ((buildAlerts p t).map Alert.metric)
      [Metric.waterLevel, Metric.temperature, Metric.tds] ∧
    (waterLevelOut p t = true → temperatureOut p t = true → tdsOut p t = true →
      buildAlerts p t =
        [⟨Metric.waterLevel, waterLevelMsg p t⟩, ⟨Metric.temperature, temperatureMsg p t⟩,
          ⟨Metric.tds, tdsMsg p t⟩]) := by
  constructor
  · unfold buildAlerts
    by_cases h1 : waterLevelOut p t <;> by_cases h2 : temperatureOut p t <;>
      by_cases h3 : tdsOut p t <;>
      simp [h1, h2, h3]
  · intro h1 h2 h3
    simp [buildAlerts, h1, h2, h3]

/-- Witness for C3: with thresholds (10,50)/(20,32)/(0,500) and readings
5, 40, 600 all three metrics are out of range and the alerts come out in
the fixed order. -/
theorem evaluate_ordered_witness :
    buildAlerts ⟨some 5, some 40, some 600⟩ ⟨10, 50, 20, 32, 0, 500⟩ =
      [⟨Metric.waterLevel, waterLevelMsg ⟨some 5, some 40, some 600⟩ ⟨10, 50, 20, 32, 0, 500⟩⟩,
       ⟨Metric.temperature, temperatureMsg ⟨some 5, some 40, some 600⟩ ⟨10, 50, 20, 32, 0, 500⟩⟩,
       ⟨Metric.tds, tdsMsg ⟨some 5, some 40, some 600⟩ ⟨10, 50, 20, 32, 0, 500⟩⟩] :=
  (evaluate_ordered ⟨some 5, some 40, some 600⟩ ⟨10, 50, 20, 32, 0, 500⟩).2
    (by decide) (by decide) (by decide)

/-! ## Bounded telemetry fetcher (part_002, `fetchSensorDataFromESP`) -/

/-- The fixed fetch timeout constant of the source. -/
def FETCH_TIMEOUT_MS : Nat := 30000

/-- The parsed ESP JSON body; the live feed carries no pH field, and any
of the three fields may be absent. -/
structure EspData where
  waterLevelInside : JsNum
  waterTemp : JsNum
  tds : JsNum
deriving DecidableEq, Repr

/-- What the single HTTP GET attempt yields from the network's side:
either no reply arrives before the abort timer fires at
`FETCH_TIMEOUT_MS`, or a reply with a status, a body text, and (if the
body parses) a parsed JSON value. -/
inductive HttpAttempt
  | noResponse
  | response (status : Nat) (body : String) (json : Option EspData)
deriving DecidableEq, Repr

/-- The outcome of `fetchSensorDataFromESP`: the distinct `AbortError`
raised when the abort controller cancels the request at the timeout, the
error thrown on a non-OK status (carrying status and body in its
message), a JSON parse failure, or the parsed data. -/
inductive FetchOutcome
  | timeout
  | transportError (status : Nat) (body : String)
  | jsonError
  | ok (data : EspData)
deriving DecidableEq, Repr

/-- `response.ok`: HTTP status in the 200–299 range. -/
def responseOk (status : Nat) : Bool :=
  decide (200 ≤ status) && decide (status ≤ 299)

/-- `fetchSensorDataFromESP`: one GET, no retry — only the first element
of the attempt list (the reply to the single request) is ever consumed.
No reply before the timeout means the abort controller cancels the
request and the `AbortError` propagates; a non-OK status throws an error
carrying the status and body; otherwise the body is parsed as JSON. -/
def fetchSensorDataFromESP : List HttpAttempt → FetchOutcome
  | [] => FetchOutcome.timeout
  | HttpAttempt.noResponse :: _ => FetchOutcome.timeout
  | HttpAttempt.response s b j :: _ =>
    if responseOk s then
      match j with
      | some d => FetchOutcome.ok d
      | none => FetchOutcome.jsonError
    else
      FetchOutcome.transportError s b

/-- **C7.** The telemetry fetch is bounded by the fixed 30-second
timeout; when the source never answers within it, the result is the
distinct timeout error (a different constructor from the transport
error, so callers can tell them apart); a non-success HTTP status yields
a transport error carrying the status and body; and no retry happens:
the outcome depends only on the reply to the single request, never on
any further would-be attempts. -/
theorem fetch_timeout_transport_no_retry (s : Nat) (b : String) (j : Option EspData)
    (a : HttpAttempt) (rest rest' : List HttpAttempt) :
    FETCH_TIMEOUT_MS = 30000 ∧
    fetchSensorDataFromESP (HttpAttempt.noResponse :: rest) = FetchOutcome.timeout ∧
    (responseOk s = false →
      fetchSensorDataFromESP (HttpAttempt.response s b j :: rest) =
        FetchOutcome.transportError s b) ∧
    fetchSensorDataFromESP (a :: rest) = fetchSensorDataFromESP (a :: rest') ∧
    FetchOutcome.timeout ≠ FetchOutcome.transportError s b := by
  refine ⟨rfl, rfl, fun h => by simp [fetchSensorDataFromESP, h], ?_, by simp⟩
  cases a <;> rfl

/-- Witness for C7 at a 500 response with body "boom". -/
theorem fetch_timeout_transport_no_retry_witness :
    fetchSensorDataFromESP [HttpAttempt.response 500 "boom" none] =
      FetchOutcome.transportError 500 "boom" :=
  (fetch_timeout_transport_no_retry 500 "boom" none HttpAttempt.noResponse [] []).2.2.1
    (by decide)

/-! ## Condition-check cycle (part_002, `checkConditionsAndSendAlert`) -/

/-- How one run of `checkConditionsAndSendAlert` ends. The function
catches every error itself and always returns normally, so none of these
outcomes is an error surfaced to the caller: a failed fetch is logged in
the `catch` block, an empty `thresholds` table is logged and the run
returns early, an empty alert list logs "All pond conditions are
normal", and a non-empty one triggers the notification fan-out. -/
inductive CheckResult
  | fetchFailed
  | noThresholds
  | normal
  | alerted (alerts : List Alert) (workerEmails : List String)
deriving DecidableEq, Repr

/-- One run of `checkConditionsAndSendAlert`, as a function of the fetch
outcome, the rows of `SELECT * FROM thresholds LIMIT 1`, and the worker
e-mail rows. -/
def checkConditionsAndSendAlert (fetch : FetchOutcome) (thresholdRows : List Threshold)
    (workerEmails : List String) : CheckResult :=
  match fetch with
  | FetchOutcome.ok espData =>
    match thresholdRows with
    | [] => CheckResult.noThresholds
    | threshold :: _ =>
      let pondData : PondData := ⟨espData.waterLevelInside, espData.waterTemp, espData.tds⟩
      let alerts := buildAlerts pondData threshold
      if alerts.isEmpty then CheckResult.normal
      else CheckResult.alerted alerts workerEmails
  | _ => CheckResult.fetchFailed

/-- **C5 counterexample.** A cycle whose fetched JSON has no
`waterLevelInside` field (with the other metrics in range) is treated as
all-clear: the run ends in `normal` with zero alert conditions and no
configuration error is reported to the caller — contradicting the claim
that a missing observed value is never silently skipped. -/
theorem missing_value_treated_as_all_clear :
    checkConditionsAndSendAlert (FetchOutcome.ok ⟨none, some 26, some 300⟩)
      [⟨10, 50, 20, 32, 0, 500⟩] ["w@example.com"] = CheckResult.normal := by
  decide

/-- **C5 amended.** A missing or non-numeric observed value compares
false against both bounds, so it never produces an alert for its metric
— a cycle in which all observed values are missing is reported all-clear;
an absent threshold row ends the run early (logged only); a failed fetch
ends the run in the catch block; in every case the function returns
normally, reporting no configuration error to the caller. -/
theorem check_conditions_error_handling (t : Threshold) (ts : List Threshold)
    (ws : List String) (d : EspData) (s : Nat) (b : String) :
    checkConditionsAndSendAlert (FetchOutcome.ok ⟨none, none, none⟩) (t :: ts) ws =
      CheckResult.normal ∧
    checkConditionsAndSendAlert (FetchOutcome.ok d) [] ws = CheckResult.noThresholds ∧
    checkConditionsAndSendAlert FetchOutcome.timeout (t :: ts) ws = CheckResult.fetchFailed ∧
    checkConditionsAndSendAlert (FetchOutcome.transportError s b) (t :: ts) ws =
      CheckResult.fetchFailed := by
  refine ⟨?_, rfl, rfl, rfl⟩
  simp [checkConditionsAndSendAlert, buildAlerts, waterLevelOut, temperatureOut, tdsOut]

/-! ## Archival job (part_002, `saveSensorsData`) -/

/-- The INSERT statement of the archival job, verbatim: it names five
columns and five placeholders. -/
def saveSensorsDataSql : String :=
  "INSERT INTO sensors_data (Pond_ID, Water_Level, WaterTemp, TDS, pH) VALUES (?, ?, ?, ?, ?)"

/-- Number of `?` placeholders in a SQL string. -/
def sqlPlaceholderCount (sql : String) : Nat :=
  sql.toList.count '?'

/-- The `values` array the archival job binds:
`[1, data.waterLevelInside, data.waterTemp, data.tds]` — four values. -/
def saveSensorsDataValues (data : EspData) : List JsNum :=
  [some 1, data.waterLevelInside, data.waterTemp, data.tds]

/-- One run of `saveSensorsData`: on a successful fetch it issues the
INSERT with the bound values; any error (including a fetch timeout) is
caught and logged and the tick is skipped with no retry. -/
def saveSensorsData (fetch : FetchOutcome) : Option (String × List JsNum) :=
  match fetch with
  | FetchOutcome.ok data => some (saveSensorsDataSql, saveSensorsDataValues data)
  | _ => none

/-- **C8 (code bug).** The archival INSERT names five columns (including
pH) with five placeholders, but the job binds only four values — pH is
never supplied, so the snapshot is not written verbatim; on fetch
failure the tick is skipped (no query issued). Evaluated at the concrete
successful fetch {waterLevelInside: 20, waterTemp: 26, tds: 300}. -/
theorem saveSensorsData_pH_missing :
    sqlPlaceholderCount saveSensorsDataSql = 5 ∧
    (saveSensorsDataValues ⟨some 20, some 26, some 300⟩).length = 4 ∧
    saveSensorsData (FetchOutcome.ok ⟨some 20, some 26, some 300⟩) =
      some (saveSensorsDataSql, [some 1, some 20, some 26, some 300]) ∧
    saveSensorsData FetchOutcome.timeout = none := by
  refine ⟨?_, rfl, rfl, rfl⟩
  decide

/-! ## Notification fan-out (part_001 cron body; part_002 alert path) -/

/-- A notification channel. -/
inductive Channel
  | realtime
  | push
  | email
deriving DecidableEq, Repr

/-- How one channel attempt ended. `skipped` is the early return taken
when the push provider has no credentials. -/
inductive ChannelResult
  | ok
  | failed (msg : String)
  | skipped
deriving DecidableEq, Repr

/-- One channel attempt and its result. -/
structure ChannelReport where
  channel : Channel
  result : ChannelResult
deriving DecidableEq, Repr

/-- `sendFeedingPush` (part_001): when Firebase Admin was never
initialized the push is skipped with a warning; otherwise the send runs
and its error, if any, is caught and logged inside the function. -/
def sendFeedingPush (adminInitialized : Bool) (pushSend : Except String Unit) : ChannelResult :=
  if adminInitialized then
    match pushSend with
    | Except.ok _ => ChannelResult.ok
    | Except.error e => ChannelResult.failed e
  else
    ChannelResult.skipped

/-- The dispatch performed by the cron body for a newly created reminder:
`io.emit("feeding-reminder", ...)` followed by `sendFeedingPush` wrapped
in try/catch — two channels, no e-mail. -/
def dispatchReminder (adminInitialized : Bool) (pushSend : Except String Unit) :
    List ChannelReport :=
  [⟨Channel.realtime, ChannelResult.ok⟩,
   ⟨Channel.push, sendFeedingPush adminInitialized pushSend⟩]

/-- `sendAlertEmails` (part_002): `transporter.sendMail` with a callback
that only logs a failure — the error never escapes. -/
def sendAlertEmails (emailSend : Except String Unit) : ChannelResult :=
  match emailSend with
  | Except.ok _ => ChannelResult.ok
  | Except.error e => ChannelResult.failed e

/-- `sendPushNotificationFCM` (part_002, the legacy-HTTP definition that
shadows the Admin-SDK one): without a configured server key the push is
skipped with a warning; otherwise the send runs and failures are logged
inside the function. -/
def sendPushNotificationFCM (serverKey : Option String) (pushSend : Except String Unit) :
    ChannelResult :=
  match serverKey with
  | none => ChannelResult.skipped
  | some _ =>
    match pushSend with
    | Except.ok _ => ChannelResult.ok
    | Except.error e => ChannelResult.failed e

/-- The alert-path fan-out of `checkConditionsAndSendAlert` once the
alert list is non-empty: e-mail only when worker e-mail rows exist
(otherwise only an error is logged), then always the FCM push — two
channels, no realtime broadcast. -/
def dispatchAlerts (workerEmails : List String) (emailSend : Except String Unit)
    (serverKey : Option String) (pushSend : Except String Unit) : List ChannelReport :=
  (if workerEmails.isEmpty then []
   else [⟨Channel.email, sendAlertEmails emailSend⟩]) ++
  [⟨Channel.push, sendPushNotificationFCM serverKey pushSend⟩]

/-- **C6 counterexample.** No dispatched payload ever reaches all three
channels: a reminder dispatch never attempts the e-mail channel, and an
alert dispatch never attempts the realtime channel — even with every
provider configured and healthy. -/
theorem dispatch_never_all_three_channels :
    Channel.email ∉ (dispatchReminder true (Except.ok ())).map ChannelReport.channel ∧
    Channel.realtime ∉
      (dispatchAlerts ["w@example.com"] (Except.ok ()) (some "key")
        (Except.ok ())).map ChannelReport.channel := by
  decide

/-- **C6 amended.** A reminder dispatch attempts exactly the realtime
and push channels, an alert dispatch (with worker e-mails present)
attempts exactly the e-mail and push channels, and within each path the
channels are isolated: a failing push never suppresses the realtime or
e-mail attempt, a failing e-mail never suppresses the push attempt, and
every failure is caught inside the sending function (recorded in the
report, never raised out of the dispatch). -/
theorem dispatch_isolation (adminInitialized : Bool) (ems : List String)
    (emailSend pushSend : Except String Unit) (serverKey : Option String)
    (pmsg emsg : String) (h : ems ≠ []) :
    (dispatchReminder adminInitialized pushSend).map ChannelReport.channel =
      [Channel.realtime, Channel.push] ∧
    (dispatchAlerts ems emailSend serverKey pushSend).map ChannelReport.channel =
      [Channel.email, Channel.push] ∧
    ⟨Channel.realtime, ChannelResult.ok⟩ ∈
      dispatchReminder adminInitialized (Except.error pmsg) ∧
    ⟨Channel.email, sendAlertEmails emailSend⟩ ∈
      dispatchAlerts ems emailSend serverKey (Except.error pmsg) ∧
    ⟨Channel.push, sendPushNotificationFCM serverKey pushSend⟩ ∈
      dispatchAlerts ems (Except.error emsg) serverKey pushSend := by
  have hne : ems.isEmpty = false := by
    cases ems with
    | nil => exact absurd rfl h
    | cons a l => rfl
  refine ⟨rfl, ?_, ?_, ?_, ?_⟩ <;> simp [dispatchAlerts, dispatchReminder, hne]

/-- Witness for the amended C6 with one worker e-mail, a configured push
key, and a failing push provider. -/
theorem dispatch_isolation_witness :
    (dispatchAlerts ["w@example.com"] (Except.ok ()) (some "key")
      (Except.error "push down")).map ChannelReport.channel =
      [Channel.email, Channel.push] ∧
    ⟨Channel.email, sendAlertEmails (Except.ok ())⟩ ∈
      dispatchAlerts ["w@example.com"] (Except.ok ()) (some "key")
        (Except.error "push down") :=
  ⟨(dispatch_isolation true ["w@example.com"] (Except.ok ()) (Except.error "push down")
      (some "key") "push down" "mail down" (by decide)).2.1,
   (dispatch_isolation true ["w@example.com"] (Except.ok ()) (Except.ok ())
      (some "key") "push down" "mail down" (by decide)).2.2.2.1⟩

/-! ## Database connection error handlers (part_000, part_001) -/

/-- What a `connection.on('error')` handler does with an error: how many
reconnection attempts it makes, and whether the error surfaces (is
rethrown) to the surrounding code. -/
structure ErrHandlerOutcome where
  reconnectAttempts : Nat
  surfaces : Bool
deriving DecidableEq, Repr

/-- The handler of the localhost db module (part_000): connection-lost
and reset errors trigger one `connection.connect()` and are swallowed;
every other error is rethrown unchanged with no reconnection. -/
def dbErrorHandlerLocal (code : String) : ErrHandlerOutcome :=
  if code = "PROTOCOL_CONNECTION_LOST" ∨ code = "ECONNRESET" then
    ⟨1, false⟩
  else
    ⟨0, true⟩

/-- The handler of the main db module (part_001): same shape, but it
additionally reconnects-and-swallows on
`PROTOCOL_ENQUEUE_AFTER_FATAL_ERROR`. -/
def dbErrorHandlerMain (code : String) : ErrHandlerOutcome :=
  if code = "PROTOCOL_CONNECTION_LOST" ∨ code = "ECONNRESET" ∨
      code = "PROTOCOL_ENQUEUE_AFTER_FATAL_ERROR" then
    ⟨1, false⟩
  else
    ⟨0, true⟩

/-- **C9 counterexample.** A connection-lost error does not surface to
the caller after the reconnection attempt — the handler swallows it —
and the main db module's handler makes a reconnection attempt (and
swallows the error) for `PROTOCOL_ENQUEUE_AFTER_FATAL_ERROR`, which is
neither a connection-lost nor a connection-reset error. -/
theorem db_error_handler_counterexample :
    (dbErrorHandlerLocal "PROTOCOL_CONNECTION_LOST").surfaces = false ∧
    dbErrorHandlerMain "PROTOCOL_ENQUEUE_AFTER_FATAL_ERROR" =
      ⟨1, false⟩ := by
  decide

/-- **C9 amended.** Connection-lost and connection-reset errors (and, in
the main db module only, `PROTOCOL_ENQUEUE_AFTER_FATAL_ERROR`) trigger
exactly one reconnection attempt and are swallowed — they never surface
to the caller; every other error kind is rethrown unchanged with no
reconnection attempt. -/
theorem db_error_handler_semantics (code : String) :
    (code = "PROTOCOL_CONNECTION_LOST" ∨ code = "ECONNRESET" →
      dbErrorHandlerLocal code = ⟨1, false⟩) ∧
    (¬(code = "PROTOCOL_CONNECTION_LOST" ∨ code = "ECONNRESET") →
      dbErrorHandlerLocal code = ⟨0, true⟩) ∧
    (code = "PROTOCOL_CONNECTION_LOST" ∨ code = "ECONNRESET" ∨
        code = "PROTOCOL_ENQUEUE_AFTER_FATAL_ERROR" →
      dbErrorHandlerMain code = ⟨1, false⟩) ∧
    (¬(code = "PROTOCOL_CONNECTION_LOST" ∨ code = "ECONNRESET" ∨
        code = "PROTOCOL_ENQUEUE_AFTER_FATAL_ERROR") →
      dbErrorHandlerMain code = ⟨0, true⟩) := by
  refine ⟨fun h => ?_, fun h => ?_, fun h => ?_, fun h => ?_⟩ <;>
    simp [dbErrorHandlerLocal, dbErrorHandlerMain, h]

/-- Witness for the amended C9 at a reset error and an unrelated error. -/
theorem db_error_handler_semantics_witness :
    dbErrorHandlerLocal "ECONNRESET" = ⟨1, false⟩ ∧
    dbErrorHandlerMain "ER_PARSE_ERROR" = ⟨0, true⟩ :=
  ⟨(db_error_handler_semantics "ECONNRESET").1 (Or.inr rfl),
   (db_error_handler_semantics "ER_PARSE_ERROR").2.2.2 (by decide)⟩

end Prawncare
